import Mathlib

/-!
Verification development for the magnetodbclient HTTP request pipeline.

The definitions below are a shallow embedding of the Python source of
python-magnetodbclient (magnetodbclient/client.py, magnetodbclient/v1/client.py,
magnetodbclient/common/exceptions.py, magnetodbclient/common/clientmanager.py).
Pure computations are translated into Lean functions; the stateful request
machinery is modelled by explicit state passing, with network outcomes supplied
by scripted oracles.  Fallible code returns `Except` or `Option`.
-/

set_option autoImplicit false
set_option linter.unusedVariables false

deriving instance DecidableEq for Except

/-- Truthiness of an optional string, as Python evaluates it in a boolean
context: `None` and the empty string are falsy. -/
def optTruthy : Option String → Bool
  | none => false
  | some s => !s.isEmpty

/-- Containment of `pat` in `s` as a contiguous substring (the Python
`pat in s` test on strings). -/
def containsSubstr (s pat : String) : Bool :=
  s.toList.tails.any (fun t => pat.toList.isPrefixOf t)

/-- Lookup in an association list of string fields, modelling Python
`dict.get` on a JSON object with string values. -/
def assocGet : List (String × String) → String → Option String
  | [], _ => none
  | (k, v) :: rest, a => if k = a then some v else assocGet rest a

/-- Strip trailing slash characters, modelling Python `str.rstrip` with
a slash argument (used on `auth_url` in `HTTPClient.__init__`). -/
def rstripSlash (s : String) : String :=
  ⟨(s.data.reverse.dropWhile (fun c => c = '/')).reverse⟩

/-! ## Service catalog, old (keystone v2) document shape

Embeds `ServiceCatalog.url_for` from magnetodbclient/client.py.  An endpoint of
the old shape is a JSON object with named URL fields such as `publicURL` plus
other fields such as `region`; a service has a `type` and an `endpoints` list;
the catalog is the list under `access.serviceCatalog`. -/

structure EndpointV2 where
  fields : List (String × String)
deriving DecidableEq

/-- Python `endpoint.get(attr)`. -/
def EndpointV2.get (ep : EndpointV2) (a : String) : Option String :=
  assocGet ep.fields a

structure ServiceV2 where
  type : String
  endpoints : List EndpointV2
deriving DecidableEq

/-- The list stored under `access.serviceCatalog` in the old document shape. -/
abbrev CatalogV2 := List ServiceV2

/-- Errors raised by catalog resolution (`EndpointNotFound`,
`AmbiguousEndpoints`, `EndpointTypeNotFound` in common/exceptions.py). -/
inductive CatalogError where
  | endpointNotFound
  | ambiguousEndpoints
  | endpointTypeNotFound (type_ : String)
deriving DecidableEq

/-- The per-endpoint condition in `ServiceCatalog.url_for`:
`if not filter_value or endpoint.get(attr) == filter_value`.  A `None` or
empty-string filter value is falsy and matches everything. -/
def endpointMatchesV2 (attr : String) (fv : Option String) (ep : EndpointV2) : Bool :=
  !optTruthy fv || ep.get attr == fv

/-- The `matching_endpoints` list accumulated by `ServiceCatalog.url_for`:
endpoints of services of the requested type that pass the filter, in
document order. -/
def matchingEndpointsV2 (attr : String) (fv : Option String) (service_type : String) :
    CatalogV2 → List EndpointV2
  | [] => []
  | svc :: rest =>
    (if svc.type = service_type then svc.endpoints.filter (endpointMatchesV2 attr fv) else [])
      ++ matchingEndpointsV2 attr fv service_type rest

/-- Embeds `ServiceCatalog.url_for` (client.py lines 61-88): zero matches raise
`EndpointNotFound`, more than one raise `AmbiguousEndpoints`, a unique match
lacking the requested endpoint type key raises `EndpointTypeNotFound`, and
otherwise the URL stored under that key is returned. -/
def url_forV2 (cat : CatalogV2) (attr : String) (fv : Option String)
    (service_type endpoint_type : String) : Except CatalogError String :=
  match matchingEndpointsV2 attr fv service_type cat with
  | [] => .error .endpointNotFound
  | [ep] =>
    match ep.get endpoint_type with
    | none => .error (.endpointTypeNotFound endpoint_type)
    | some u => .ok u
  | _ => .error .ambiguousEndpoints

/-! ## URI length guard (v1/client.py) -/

/-- The fixed limit `Client.MAX_URI_LEN = 8192` (v1/client.py line 138). -/
def MAX_URI_LEN : Nat := 8192

/-- Embeds `Client._check_uri_length` (v1/client.py lines 209-213): returns the
excess byte count when the combined URI length exceeds the limit, `none` when
the request may proceed. -/
def check_uri_length (endpoint_url action : String) : Option Nat :=
  let uri_len := endpoint_url.length + action.length
  if uri_len > MAX_URI_LEN then some (uri_len - MAX_URI_LEN) else none

/-- Observable outcome of the guarded part of `Client.do_request`: either the
pre-flight `RequestURITooLong` error, or the request is sent to the combined
URI (`self.httpclient.do_request` receives `action` appended to the endpoint). -/
inductive GuardedRequest where
  | uriTooLong (excess : Nat)
  | sent (uri : String)
deriving DecidableEq

/-- Embeds the URI-guard portion of `Client.do_request` (v1/client.py lines
215-226, with no query parameters so `action` is used as given): the length
check runs before the request is issued. -/
def v1_do_request_guard (endpoint_url action : String) : GuardedRequest :=
  match check_uri_length endpoint_url action with
  | some excess => .uriTooLong excess
  | none => .sent (endpoint_url ++ action)

/-! ## Client handle cache (common/clientmanager.py) -/

/-- Embeds `ClientCache.__get__` (clientmanager.py lines 29-41).  The state is
the `_handle` slot stored on the descriptor object itself (a class attribute of
`ClientManager`, hence shared by every instance) paired with a counter of
factory invocations.  Accessing the attribute on `inst` builds the handle with
the factory on first access and returns the cached handle afterwards. -/
def clientCacheGet {α β : Type} (factory : α → β) (inst : α) :
    Option β × Nat → β × (Option β × Nat)
  | (none, n) => (factory inst, (some (factory inst), n + 1))
  | (some h, n) => (h, (some h, n))

/-! ## HTTPClient 401 retry topology (client.py)

The claims about `_cs_request` and `do_request` concern the order and number of
HTTP attempts and authentications and which error is propagated.  The two
primitive effects, `HTTPClient._time_request` (one HTTP attempt) and
`HTTPClient.authenticate` (one authentication handshake), are modelled as
oracle calls that consume the next outcome from a script, with counters
recording how many of each have run.  Everything above them is translated
directly from the source. -/

/-- Errors raised through the request path, as the except-clauses of client.py
distinguish them: the `Unauthorized` class (with `NoAuthURLProvided` as a
subclass, hence also caught by `except Unauthorized`) versus everything else.
The tag identifies the individual error object. -/
inductive HErr where
  | unauthorized (tag : Nat)
  | otherErr (tag : Nat)
deriving DecidableEq

/-- Python `isinstance(e, exceptions.Unauthorized)`. -/
def HErr.isUnauthorized : HErr → Bool
  | .unauthorized _ => true
  | .otherErr _ => false

/-- Scripted outcomes: `attemptResults k` is what the k-th `_time_request`
does (a body on success, a raised error otherwise), `authResults k` is what
the k-th `authenticate` does (`none` on success). -/
structure Script where
  attemptResults : Nat → Except HErr Nat
  authResults : Nat → Option HErr

/-- Number of `_time_request` and `authenticate` calls performed so far. -/
structure CallCounters where
  nAttempts : Nat
  nAuths : Nat
deriving DecidableEq

/-- Models one `HTTPClient._time_request` call (client.py lines 205-210):
perform the HTTP attempt and record its timing entry. -/
def time_request (sc : Script) (s : CallCounters) : Except HErr Nat × CallCounters :=
  (sc.attemptResults s.nAttempts, { s with nAttempts := s.nAttempts + 1 })

/-- Models one `HTTPClient.authenticate` call: a handshake that either succeeds
or raises. -/
def authenticate_call (sc : Script) (s : CallCounters) : Option HErr × CallCounters :=
  (sc.authResults s.nAuths, { s with nAuths := s.nAuths + 1 })

/-- Embeds `HTTPClient._cs_request` (client.py lines 212-230): one attempt; on
`Unauthorized`, authenticate and retry once, and if the authentication or the
retry raises `Unauthorized` again, re-raise the original error `ex`.  Errors
other than `Unauthorized` propagate unchanged. -/
def cs_request (sc : Script) (s : CallCounters) : Except HErr Nat × CallCounters :=
  match time_request sc s with
  | (.ok v, s1) => (.ok v, s1)
  | (.error ex, s1) =>
    if ex.isUnauthorized then
      match authenticate_call sc s1 with
      | (none, s2) =>
        match time_request sc s2 with
        | (.ok v, s3) => (.ok v, s3)
        | (.error e2, s3) => if e2.isUnauthorized then (.error ex, s3) else (.error e2, s3)
      | (some ae, s2) => if ae.isUnauthorized then (.error ex, s2) else (.error ae, s2)
    else (.error ex, s1)

/-- Embeds `HTTPClient._get_endpoint_url` (client.py lines 383-402): a
`_cs_request` GET against the identity service; on `Unauthorized` it
authenticates and returns the current endpoint; other errors propagate.  The
endpoint extraction from a successful body is modelled as succeeding, since the
claims under study never reach it. -/
def get_endpoint_url_call (sc : Script) (s : CallCounters) : Option HErr × CallCounters :=
  match cs_request sc s with
  | (.ok _, s1) => (none, s1)
  | (.error e, s1) =>
    if e.isUnauthorized then authenticate_call sc s1 else (some e, s1)

/-- Embeds `HTTPClient.authenticate_and_fetch_endpoint_url` (client.py lines
241-245): authenticate when no token is held, otherwise resolve the endpoint
when none is known, otherwise do nothing. -/
def authenticate_and_fetch_endpoint_url (sc : Script) (s : CallCounters)
    (hasToken hasEndpoint : Bool) : Option HErr × CallCounters :=
  if !hasToken then authenticate_call sc s
  else if !hasEndpoint then get_endpoint_url_call sc s
  else (none, s)

/-- Embeds `HTTPClient.do_request` (client.py lines 247-267): ensure
token/endpoint, call `_cs_request`, and on `Unauthorized` from it authenticate
again and call `_cs_request` a second time, whose outcome is returned. -/
def hc_do_request (sc : Script) (s : CallCounters) (hasToken hasEndpoint : Bool) :
    Except HErr Nat × CallCounters :=
  match authenticate_and_fetch_endpoint_url sc s hasToken hasEndpoint with
  | (some e, s1) => (.error e, s1)
  | (none, s1) =>
    match cs_request sc s1 with
    | (.ok v, s2) => (.ok v, s2)
    | (.error e, s2) =>
      if e.isUnauthorized then
        match authenticate_call sc s2 with
        | (some ae, s3) => (.error ae, s3)
        | (none, s3) => cs_request sc s3
      else (.error e, s2)

/-- Script in which every HTTP attempt fails `Unauthorized` (tagged by attempt
index) and every authentication succeeds. -/
def allUnauthorizedScript : Script :=
  ⟨fun k => .error (.unauthorized k), fun _ => none⟩

/-- Script for the witness of the amended 401-retry claim: attempt `k` fails
`Unauthorized` with tag `100 + k`; authentication always succeeds. -/
def taggedUnauthorizedScript : Script :=
  ⟨fun k => .error (.unauthorized (100 + k)), fun _ => none⟩

/-! ## v1 Client retry loop (v1/client.py) -/

/-- Errors seen by `Client.retry_request`: `ConnectionFailed` (the only kind the
loop catches) versus everything else. -/
inductive V1Err where
  | connectionFailed (reason : String)
  | otherV1Err (tag : Nat)
deriving DecidableEq

/-- Python `isinstance(e, exceptions.ConnectionFailed)` on an attempt outcome. -/
def isConnectionFailed : Except V1Err Nat → Bool
  | .error (.connectionFailed _) => true
  | _ => false

/-- Embeds the `for i in range(max_attempts)` loop of `Client.retry_request`
(v1/client.py lines 273-292).  `attempts k` is the outcome of the k-th
`do_request`; `remaining` counts loop iterations still allowed (initially
`retries + 1`); `made` counts attempts performed and `slept` the total time
spent sleeping (`time.sleep(retry_interval)` runs after a `ConnectionFailed`
attempt `i` with `i < retries`).  Falling out of the loop raises
`ConnectionFailed` with the maximum-attempts reason. -/
def retry_loop (attempts : Nat → Except V1Err Nat) (retries retry_interval : Nat) :
    Nat → Nat → Nat → Nat → (Except V1Err Nat × Nat × Nat)
  | _, 0, made, slept => (.error (.connectionFailed "Maximum attempts reached"), made, slept)
  | i, remaining + 1, made, slept =>
    match attempts i with
    | .ok v => (.ok v, made + 1, slept)
    | .error (.connectionFailed _) =>
      retry_loop attempts retries retry_interval (i + 1) remaining (made + 1)
        (slept + (if i < retries then retry_interval else 0))
    | .error (.otherV1Err t) => (.error (.otherV1Err t), made + 1, slept)

/-- Embeds `Client.retry_request`: run the loop with `max_attempts =
retries + 1` starting at attempt 0.  Returns the outcome, the number of
attempts performed and the total sleep time. -/
def retry_request (attempts : Nat → Except V1Err Nat) (retries retry_interval : Nat) :
    Except V1Err Nat × Nat × Nat :=
  retry_loop attempts retries retry_interval 0 (retries + 1) 0 0

/-- Embeds `Client.post` (v1/client.py lines 302-305): POST calls `do_request`
directly, with no retry loop, so exactly one attempt runs and its outcome is
returned unchanged. -/
def post_request (attempts : Nat → Except V1Err Nat) : Except V1Err Nat × Nat × Nat :=
  (attempts 0, 1, 0)

/-- Attempt oracle for the C6 witness: every attempt raises
`ConnectionFailed`. -/
def allConnectionFailed : Nat → Except V1Err Nat :=
  fun _ => .error (.connectionFailed "conn refused")

/-! ## Response error taxonomy (client.py request, common/exceptions.py) -/

/-- The typed error classes of the status-code mapping
(common/exceptions.py lines 71-110). -/
inductive HttpErrKind where
  | badRequest
  | unauthorized
  | forbidden
  | notFound
  | conflict
  | internalServerError
  | serviceUnavailable
deriving DecidableEq

/-- Association-list lookup keyed by status code (Python dict `.get`). -/
def kindLookup : List (Nat × HttpErrKind) → Nat → Option HttpErrKind
  | [], _ => none
  | (k, v) :: rest, s => if s = k then some v else kindLookup rest s

/-- Embeds `HTTP_EXCEPTION_MAP` (common/exceptions.py lines 102-110). -/
def HTTP_EXCEPTION_MAP : List (Nat × HttpErrKind) :=
  [(400, .badRequest), (401, .unauthorized), (403, .forbidden), (404, .notFound),
   (409, .conflict), (500, .internalServerError), (503, .serviceUnavailable)]

/-- Errors raised by `HTTPClient.request` on a failing response: the
`ConnectionRefused` reclassification, a typed error from the map, or the
generic client exception carrying status code and message. -/
inductive RespError where
  | connectionRefused (text : String)
  | typed (kind : HttpErrKind) (message : String)
  | generic (status_code : Nat) (message : String)
deriving DecidableEq

/-- Modelled from the spec: `exceptions.from_response` is called by
`HTTPClient.request` (client.py line 201) but is not defined anywhere under
src.  Per the spec, the status code selects the typed error through the
status-code-to-error-kind mapping, and unmapped codes fall back to a generic
client exception carrying the status code and message. -/
def from_response (status : Nat) (message : String) : RespError :=
  match kindLookup HTTP_EXCEPTION_MAP status with
  | some k => .typed k message
  | none => .generic status message

/-- The connection-refusal body patterns tested by `HTTPClient.request`
(client.py lines 190-191). -/
def connectionRefusedPattern (text : String) : Bool :=
  containsSubstr text "Connection refused" || containsSubstr text "actively refused"

/-- Embeds the error-classification tail of `HTTPClient.request` (client.py
lines 188-203): a non-empty 400 body matching a refusal pattern raises
`ConnectionRefused`; otherwise any status of at least 400 raises the error
built by `from_response`; lower statuses raise nothing.  The response text
stands in for the decoded body as the message payload. -/
def request_error (status : Nat) (text : String) : Option RespError :=
  if text ≠ "" ∧ status = 400 ∧ connectionRefusedPattern text then
    some (.connectionRefused text)
  else if 400 ≤ status then some (from_response status text)
  else none

/-! ## Request logging and password redaction (client.py) -/

/-- Headers and optional body of a request, the kwargs of
`HTTPClient.request`. -/
structure RequestKwargs where
  headers : List (String × String)
  body : Option String
deriving DecidableEq

/-- Fuel-indexed replacement of every non-overlapping occurrence of `pat`
(scanning left to right), the semantics of Python `str.replace`.  The fuel is
a structural-recursion device; it is always instantiated with the length of
the list, which suffices because every step consumes at least one element. -/
def replaceFuel (pat rep : List Char) : Nat → List Char → List Char
  | 0, l => l
  | _ + 1, [] => []
  | fuel + 1, c :: rest =>
    if pat ≠ [] ∧ pat.isPrefixOf (c :: rest) then
      rep ++ replaceFuel pat rep fuel (rest.drop (pat.length - 1))
    else
      c :: replaceFuel pat rep fuel rest

/-- Python `s.replace(pat, rep)` for a non-empty pattern. -/
def pyReplace (s pat rep : String) : String :=
  ⟨replaceFuel pat.data rep.data s.data.length s.data⟩

/-- Embeds `HTTPClient._strip_credentials` (client.py lines 232-239): when the
kwargs carry a truthy body and the client holds a truthy password, the body is
copied with every occurrence of the password replaced by `REDACTED`; otherwise
the kwargs are returned unchanged. -/
def strip_credentials (password : Option String) (kwargs : RequestKwargs) : RequestKwargs :=
  if optTruthy kwargs.body && optTruthy password then
    { kwargs with
      body := some (pyReplace (kwargs.body.getD "") (password.getD "") "REDACTED") }
  else kwargs

/-- Modelled from the spec: `utils.http_log_req` is called by
`HTTPClient.request` (client.py line 174) but magnetodbclient/common/utils.py
is not under src.  Per the spec every call is logged and the logged request
body appears in the emitted line; we render a curl-style line carrying the
body it is handed verbatim. -/
def http_log_req_line (url method : String) (kwargs : RequestKwargs) : String :=
  "REQ: curl -i " ++ url ++ " -X " ++ method ++ " -d " ++ kwargs.body.getD ""

/-- Embeds the logging step of `HTTPClient.request` (client.py lines 169-186):
the kwargs are handed to `utils.http_log_req` unchanged.  `_strip_credentials`
is never invoked on this path (nor anywhere else under src), and the
configured password is not passed to the logger, so the `password` parameter
is unused exactly as in the source. -/
def request_log_line (password : Option String) (url method : String)
    (kwargs : RequestKwargs) : String :=
  http_log_req_line url method kwargs

/-! ## Pagination (v1/client.py list and _pagination)

The `get` issued per page is modelled as an oracle from query parameters to the
decoded page.  Link following re-parses the query string of the next link's
URL, so the relevant parts of the Python standard library used by the source
(`urlparse.urlparse(...).query` and `urlparse.parse_qs`) are modelled on ASCII
text below. -/

/-- Characters before the first occurrence of `c`. -/
def takeUntil (c : Char) : List Char → List Char
  | [] => []
  | x :: rest => if x = c then [] else x :: takeUntil c rest

/-- Characters after the first occurrence of `c`, or `none` when absent. -/
def afterFirst (c : Char) : List Char → Option (List Char)
  | [] => none
  | x :: rest => if x = c then some rest else afterFirst c rest

/-- The query component of a URL: the text after the first question mark of
the part preceding any fragment, as `urlparse(url).query` yields it. -/
def urlQuery (s : String) : String :=
  match afterFirst '?' (takeUntil '#' s.data) with
  | some q => ⟨q⟩
  | none => ""

/-- Value of a hexadecimal digit. -/
def hexVal (c : Char) : Option Nat :=
  if '0' ≤ c ∧ c ≤ '9' then some (c.toNat - '0'.toNat)
  else if 'a' ≤ c ∧ c ≤ 'f' then some (10 + c.toNat - 'a'.toNat)
  else if 'A' ≤ c ∧ c ≤ 'F' then some (10 + c.toNat - 'A'.toNat)
  else none

/-- Percent-decoding of ASCII text as Python `urllib.unquote` performs it:
a percent sign followed by two hex digits becomes that character, an invalid
escape is kept verbatim.  The fuel is a structural-recursion device, always
instantiated with the length of the list, which suffices because every step
consumes at least one element. -/
def percentDecodeFuel : Nat → List Char → List Char
  | 0, l => l
  | _ + 1, [] => []
  | fuel + 1, c :: rest =>
    if c = '%' then
      match rest with
      | a :: b :: rest2 =>
        match hexVal a, hexVal b with
        | some x, some y => Char.ofNat (16 * x + y) :: percentDecodeFuel fuel rest2
        | _, _ => '%' :: percentDecodeFuel fuel rest
      | _ => '%' :: percentDecodeFuel fuel rest
    else c :: percentDecodeFuel fuel rest

/-- Python `unquote(s.replace('+', ' '))`, the per-field decoding done by
`parse_qsl`. -/
def unquotePlus (l : List Char) : String :=
  ⟨percentDecodeFuel l.length (l.map (fun c => if c = '+' then ' ' else c))⟩

/-- Split a query string on field separators (ampersand and semicolon), as
Python 2 `urlparse.parse_qsl` does. -/
def splitQsFields : List Char → List (List Char)
  | [] => [[]]
  | c :: rest =>
    match splitQsFields rest with
    | [] => [[]]
    | cur :: parts =>
      if c = '&' ∨ c = ';' then [] :: cur :: parts else (c :: cur) :: parts

/-- Split a field at the first equals sign (`name_value.split('=', 1)`),
failing when no equals sign is present. -/
def splitEq1 (l : List Char) : Option (List Char × List Char) :=
  (afterFirst '=' l).map (fun v => (takeUntil '=' l, v))

/-- Python 2 `urlparse.parse_qsl` with default flags: fields without an equals
sign or with an empty value are skipped, names and values are
plus-and-percent decoded. -/
def parse_qsl (qs : String) : List (String × String) :=
  (splitQsFields qs.data).filterMap (fun nv =>
    match splitEq1 nv with
    | none => none
    | some (n, v) => if v = [] then none else some (unquotePlus n, unquotePlus v))

/-- Query parameters as `urlparse.parse_qs` returns them: each name mapped to
the list of its values, names kept in first-occurrence order. -/
abbrev Params := List (String × List String)

/-- Add one name/value pair to the accumulated parameter dictionary. -/
def addParam : Params → String → String → Params
  | [], n, v => [(n, [v])]
  | (k, vs) :: rest, n, v =>
    if k = n then (k, vs ++ [v]) :: rest else (k, vs) :: addParam rest n v

/-- Python 2 `urlparse.parse_qs`. -/
def parse_qs (qs : String) : Params :=
  (parse_qsl qs).foldl (fun ps p => addParam ps p.1 p.2) []

/-- Lookup of a parameter name (Python `params.get(name)`). -/
def paramsGet : Params → String → Option (List String)
  | [], _ => none
  | (k, vs) :: rest, n => if k = n then some vs else paramsGet rest n

/-- One decoded list-style response page: `items` is the list stored under the
collection key, `links` the optional list under the `<collection>_links` key,
each link a rel/href pair. -/
structure Page where
  items : List String
  links : Option (List (String × String))
deriving DecidableEq

/-- Oracle for `self.get(path, params=params)`: the page the service returns
for given query parameters. -/
abbrev Server := Params → Page

/-- The link relation followed by `Client._pagination` (v1/client.py lines
321-324): `previous` when `page_reverse` is set, `next` otherwise. -/
def linkrelOf (page_reverse : Bool) : String :=
  if page_reverse then "previous" else "next"

/-- Python `params.get('page_reverse', False)` evaluated for truthiness on the
parameter dictionary. -/
def pageReverseOf (ps : Params) : Bool :=
  match paramsGet ps "page_reverse" with
  | none => false
  | some vs => !vs.isEmpty

/-- The link-following step of `Client._pagination` (v1/client.py lines
329-338): a missing `<collection>_links` key ends the iteration (the KeyError
is caught and breaks the loop), as does the absence of a link with the
followed relation; otherwise the query string of the first matching link's
href is parsed into the next parameters. -/
def nextParams (res : Page) (linkrel : String) : Option Params :=
  match res.links with
  | none => none
  | some links =>
    match links.find? (fun l => l.1 == linkrel) with
    | none => none
    | some l => some (parse_qs (urlQuery l.2))

/-- Embeds the page loop of `Client._pagination` (v1/client.py lines 320-338):
fetch the page for the current parameters, stop when no followed link is
present, otherwise continue with the parameters parsed from the link.  The
fuel bounds the number of pages fetched; any fuel at least the length of the
finite page chain is enough. -/
def paginate (server : Server) (linkrel : String) : Nat → Params → List Page
  | 0, _ => []
  | fuel + 1, ps =>
    server ps ::
      (match nextParams (server ps) linkrel with
       | none => []
       | some ps2 => paginate server linkrel fuel ps2)

/-- Embeds `Client.list` with `retrieve_all` (v1/client.py lines 311-316): the
entries under the collection key of every fetched page, concatenated in page
order (the returned dictionary wraps exactly this list). -/
def client_list (server : Server) (fuel : Nat) (ps : Params) : List String :=
  ((paginate server (linkrelOf (pageReverseOf ps)) fuel ps).map Page.items).join

/-- A finite chain of pages linked by the followed relation: starting from
parameters `ps`, each page links to the parameters of the next, and the last
page carries no link with the followed relation. -/
inductive PageChain (server : Server) (linkrel : String) : Params → List Page → Prop where
  | last (ps : Params) (h : nextParams (server ps) linkrel = none) :
      PageChain server linkrel ps [server ps]
  | step (ps ps2 : Params) (rest : List Page)
      (h : nextParams (server ps) linkrel = some ps2)
      (hrest : PageChain server linkrel ps2 rest) :
      PageChain server linkrel ps (server ps :: rest)

/-- First page of the C7 witness chain. -/
def c7Page1 : Page := ⟨["a", "b"], some [("next", "http://h/v1/items?marker=2")]⟩

/-- Second page of the C7 witness chain. -/
def c7Page2 : Page := ⟨["c"], some [("next", "http://h/v1/items?marker=3")]⟩

/-- Last page of the C7 witness chain: no next link. -/
def c7Page3 : Page := ⟨["d"], none⟩

/-- Server oracle of the C7 witness: three pages keyed by the marker
parameter parsed from each next link. -/
def c7Server : Server := fun ps =>
  if ps == [("marker", ["2"])] then c7Page2
  else if ps == [("marker", ["3"])] then c7Page3
  else c7Page1

/-! ## Keystone authentication flow (client.py) -/

/-- JSON values, for the authentication request bodies built by the client. -/
inductive JVal where
  | null
  | str (s : String)
  | arr (elems : List JVal)
  | obj (fields : List (String × JVal))

/-- JSON encoding of an optional string (Python `None` becomes null). -/
def jstrOpt : Option String → JVal
  | none => .null
  | some s => .str s

/-- Client state relevant to authentication, the attributes set by
`HTTPClient.__init__` (client.py lines 133-167) and mutated by the
authentication path. -/
structure HTTPClientState where
  username : Option String
  tenant_name : Option String
  tenant_id : Option String
  domain_id : String
  domain_name : String
  password : Option String
  auth_url : Option String
  region_name : Option String
  auth_token : Option String
  auth_tenant_id : Option String
  auth_user_id : Option String
  endpoint_url : Option String
  endpoint_type : String
  service_type : String
  auth_strategy : String

/-- Embeds the defaulting done by `HTTPClient.__init__`: the auth URL is
right-stripped of slashes, the token becomes `auth_token`, and the endpoint
type, service type, auth strategy and domain fields take their default
values. -/
def initHTTPClient (username tenant_name tenant_id password auth_url token
    region_name endpoint_url : Option String) : HTTPClientState :=
  { username := username
    tenant_name := tenant_name
    tenant_id := tenant_id
    domain_id := "default"
    domain_name := "Default"
    password := password
    auth_url := auth_url.map rstripSlash
    region_name := region_name
    auth_token := token
    auth_tenant_id := none
    auth_user_id := none
    endpoint_url := endpoint_url
    endpoint_type := "publicURL"
    service_type := "kv-storage"
    auth_strategy := "keystone" }

/-- Errors raised on the authentication path. -/
inductive AuthError where
  | unauthorized
  | unauthorizedMsg (message : String)
  | noAuthURLProvided
  | catalogError (e : CatalogError)

/-- Embeds the credentials body of `HTTPClient._authenticate_keystone`
(client.py lines 332-342): password credentials plus `tenantId` when a truthy
tenant id is held, `tenantName` otherwise. -/
def keystoneV2CredsBody (st : HTTPClientState) : JVal :=
  if optTruthy st.tenant_id then
    .obj [("auth", .obj [("passwordCredentials",
        .obj [("username", jstrOpt st.username), ("password", jstrOpt st.password)]),
      ("tenantId", jstrOpt st.tenant_id)])]
  else
    .obj [("auth", .obj [("passwordCredentials",
        .obj [("username", jstrOpt st.username), ("password", jstrOpt st.password)]),
      ("tenantName", jstrOpt st.tenant_name)])]

/-- Embeds the credentials body of `HTTPClient._authenticate_keystone_v3`
(client.py lines 304-323). -/
def keystoneV3CredsBody (st : HTTPClientState) : JVal :=
  .obj [("auth", .obj [
    ("identity", .obj [
      ("methods", .arr [.str "password"]),
      ("password", .obj [
        ("user", .obj [
          ("domain", .obj [("id", .str st.domain_id)]),
          ("name", jstrOpt st.username),
          ("password", jstrOpt st.password)])])]),
    ("scope", .obj [
      ("project", .obj [
        ("domain", .obj [("id", .str st.domain_id)]),
        ("name", jstrOpt st.tenant_name)])])])]

/-- Split on slash characters (Python `str.split` with a slash argument). -/
def splitOnSlash : List Char → List (List Char)
  | [] => [[]]
  | c :: rest =>
    match splitOnSlash rest with
    | [] => [[]]
    | cur :: parts => if c = '/' then [] :: cur :: parts else (c :: cur) :: parts

/-- The version segment inspected by `HTTPClient.authenticate`:
`self.auth_url.split('/')[-1]`. -/
def authApiOf (auth_url : String) : String :=
  ⟨(splitOnSlash auth_url.data).getLastD []⟩

/-- The outward-visible action `authenticate` decides on: a POST handshake to
the identity service, or no network call (noauth). -/
inductive AuthAction where
  | httpPost (url : String) (body : JVal)
  | noNetwork

/-- Embeds the dispatch of `HTTPClient.authenticate` (client.py lines 365-381)
together with the request construction of `_authenticate_keystone` (lines
344-352), `_authenticate_keystone_v3` (lines 299-328) and
`_authenticate_noauth` (lines 358-363): which request the handshake issues, or
which error it raises before any network call. -/
def authenticate_action (st : HTTPClientState) : Except AuthError AuthAction :=
  if st.auth_strategy = "keystone" then
    if !optTruthy st.auth_url then .error .noAuthURLProvided
    else
      let aurl := st.auth_url.getD ""
      let api := authApiOf aurl
      if api = "v2.0" then
        .ok (.httpPost (aurl ++ "/tokens") (keystoneV2CredsBody st))
      else if api = "v3" then
        .ok (.httpPost (rstripSlash aurl ++ "/auth/tokens") (keystoneV3CredsBody st))
      else .error (.unauthorizedMsg ("Unknown Keystone api version: " ++ api))
  else if st.auth_strategy = "noauth" then
    if optTruthy st.endpoint_url then .ok .noNetwork
    else .error (.unauthorizedMsg
      "For noauth authentication strategy, the endpoint must be specified")
  else .error (.unauthorizedMsg ("Unknown auth strategy: " ++ st.auth_strategy))

/-- The fields of a keystone v2 token response body read by the client:
`access.token.id`, `access.token.expires`, `access.token.tenant.id`,
`access.user.id` and `access.serviceCatalog`. -/
structure AccessBody where
  tokenId : Option String
  tokenExpires : Option String
  tokenTenantId : Option String
  userId : Option String
  serviceCatalog : CatalogV2

/-- Embeds `ServiceCatalog.get_token` (client.py lines 48-59) followed by
`HTTPClient._extract_service_catalog` (lines 269-283): a missing token id or
expiry raises `Unauthorized`; user and tenant ids are kept when present (the
tenant id only together with the user id, mirroring the try block order); when
no endpoint is held yet it is resolved from the catalog with the region filter
and the configured service and endpoint types. -/
def extract_service_catalog (st : HTTPClientState) (body : AccessBody) :
    Except AuthError HTTPClientState :=
  match body.tokenId, body.tokenExpires with
  | some tid, some _ =>
    let ids := match body.userId with
      | none => (none, none)
      | some u => (some u, body.tokenTenantId)
    let st1 := { st with auth_token := some tid,
                         auth_user_id := ids.1,
                         auth_tenant_id := ids.2 }
    if optTruthy st1.endpoint_url then .ok st1
    else
      match url_forV2 body.serviceCatalog "region" st.region_name
          st.service_type st.endpoint_type with
      | .ok u => .ok { st1 with endpoint_url := some u }
      | .error e => .error (.catalogError e)
  | _, _ => .error .unauthorized

/-- Embeds the response handling of `HTTPClient._authenticate_keystone`
(client.py lines 353-356): any status other than 200 raises `Unauthorized`,
otherwise the service catalog is extracted. -/
def process_keystone_response (st : HTTPClientState) (status : Nat)
    (body : AccessBody) : Except AuthError HTTPClientState :=
  if status ≠ 200 then .error .unauthorized
  else extract_service_catalog st body

/-- The client of the C9 scenario. -/
def c9Client : HTTPClientState :=
  initHTTPClient (some "u") (some "t") none (some "p") (some "http://host/v2.0")
    none none none

/-- The 200 response body of the C9 scenario: token id TOK and one kv-storage
service endpoint with a publicURL. -/
def c9RespBody : AccessBody :=
  ⟨some "TOK", some "2015-01-01T00:00:00Z", none, none,
   [⟨"kv-storage", [⟨[("publicURL", "http://svc")]⟩]⟩]⟩

/-! ## Service catalog, new (keystone v3) document shape

Embeds `ServiceCatalogV3.url_for` from magnetodbclient/client.py, plus the
canonical encoding of an old-shape catalog into the new shape used to state
the refinement claim C4.  A new-shape endpoint is a JSON object with
`interface` and `url` fields plus other fields such as `region`; the catalog
is the list under `token.catalog`. -/

structure EndpointV3 where
  interface : String
  url : String
  fields : List (String × String)
deriving DecidableEq

/-- Python `endpoint.get(attr)` on a new-shape endpoint dictionary, whose
`interface` and `url` keys are ordinary dictionary entries. -/
def EndpointV3.get (ep : EndpointV3) (a : String) : Option String :=
  if a = "interface" then some ep.interface
  else if a = "url" then some ep.url
  else assocGet ep.fields a

structure ServiceV3 where
  type : String
  endpoints : List EndpointV3
deriving DecidableEq

/-- The list stored under `token.catalog` in the new document shape. -/
abbrev CatalogV3 := List ServiceV3

/-- The per-endpoint condition in `ServiceCatalogV3.url_for` (client.py lines
115-118): the interface must equal the requested one, and the filter condition
is as in the old shape. -/
def endpointMatchesV3 (attr : String) (fv : Option String) (iface : String)
    (ep : EndpointV3) : Bool :=
  ep.interface == iface && (!optTruthy fv || ep.get attr == fv)

/-- The `matching_endpoints` list accumulated by `ServiceCatalogV3.url_for`. -/
def matchingEndpointsV3 (attr : String) (fv : Option String)
    (service_type iface : String) : CatalogV3 → List EndpointV3
  | [] => []
  | svc :: rest =>
    (if svc.type = service_type then
      svc.endpoints.filter (endpointMatchesV3 attr fv iface) else [])
      ++ matchingEndpointsV3 attr fv service_type iface rest

/-- Embeds `ServiceCatalogV3.url_for` (client.py lines 100-125): the requested
interface is the endpoint type minus its last three characters
(`endpoint_type[:-3]`); zero matches raise `EndpointNotFound`, more than one
raise `AmbiguousEndpoints`, and otherwise the `url` field of the unique match
is returned -- there is no endpoint-kind-not-found branch. -/
def url_forV3 (cat : CatalogV3) (attr : String) (fv : Option String)
    (service_type endpoint_type : String) : Except CatalogError String :=
  match matchingEndpointsV3 attr fv service_type (endpoint_type.dropRight 3) cat with
  | [] => .error .endpointNotFound
  | [ep] => .ok ep.url
  | _ => .error .ambiguousEndpoints

/-- The named URL fields of an old-shape endpoint. -/
def urlKinds : List String := ["publicURL", "adminURL", "internalURL"]

/-- The non-URL fields of an old-shape endpoint (e.g. `region`), the ones an
equivalent new-shape endpoint carries alongside `interface` and `url`. -/
def stripKindFields (fields : List (String × String)) : List (String × String) :=
  fields.filter (fun p => !decide (p.1 ∈ urlKinds))

/-- The new-shape endpoint encoding the URL stored under the named field `et`
of an old-shape endpoint, when that field is present: the interface is the
field name minus the URL suffix, the url is the stored URL, and the remaining
fields are preserved. -/
def encodeMatch (et : String) (ep : EndpointV2) : Option EndpointV3 :=
  (ep.get et).map (fun u => ⟨et.dropRight 3, u, stripKindFields ep.fields⟩)

/-- Stated from the claim: the new-shape endpoints encoding the same URLs,
regions and endpoint kinds as an old-shape endpoint -- one new-shape endpoint
per named URL field present. -/
def encodeEndpointV2 (ep : EndpointV2) : List EndpointV3 :=
  (encodeMatch "publicURL" ep).toList ++ (encodeMatch "adminURL" ep).toList
    ++ (encodeMatch "internalURL" ep).toList

/-- Stated from the claim: the new-shape catalog encoding the same services,
regions and endpoint URLs as an old-shape catalog. -/
def encodeCatalogV2 (cat : CatalogV2) : CatalogV3 :=
  cat.map (fun svc => ⟨svc.type, (svc.endpoints.map encodeEndpointV2).flatten⟩)

/-- Old-shape catalog of the C4 counterexample: one matching endpoint that
lacks the requested publicURL kind. -/
def c4CatOld : CatalogV2 :=
  [⟨"kv-storage", [⟨[("region", "r"), ("adminURL", "http://a")]⟩]⟩]

/-- Old-shape catalog of the C4 witness: one matching endpoint carrying the
requested publicURL kind. -/
def c4CatBoth : CatalogV2 :=
  [⟨"kv-storage", [⟨[("region", "r"), ("publicURL", "http://a")]⟩]⟩]

/-! # Theorems -/

/-- Claim C3: for every old-shape catalog, service type, optional region filter
and endpoint kind, `url_for` raises `EndpointNotFound` on zero matching
endpoints, `AmbiguousEndpoints` on more than one, `EndpointTypeNotFound` when
the unique match lacks the requested endpoint-kind key, and returns the unique
match URL for the requested kind otherwise. -/
theorem url_forV2_cases (cat : CatalogV2) (attr : String) (fv : Option String)
    (service_type endpoint_type : String) :
    (matchingEndpointsV2 attr fv service_type cat = [] →
      url_forV2 cat attr fv service_type endpoint_type = .error .endpointNotFound)
    ∧ (∀ ep l, matchingEndpointsV2 attr fv service_type cat = ep :: l → l ≠ [] →
      url_forV2 cat attr fv service_type endpoint_type = .error .ambiguousEndpoints)
    ∧ (∀ ep, matchingEndpointsV2 attr fv service_type cat = [ep] →
      ep.get endpoint_type = none →
      url_forV2 cat attr fv service_type endpoint_type
        = .error (.endpointTypeNotFound endpoint_type))
    ∧ (∀ ep u, matchingEndpointsV2 attr fv service_type cat = [ep] →
      ep.get endpoint_type = some u →
      url_forV2 cat attr fv service_type endpoint_type = .ok u) := by
  refine ⟨fun h => by simp [url_forV2, h], fun ep l h hl => ?_, fun ep h hget => ?_,
    fun ep u h hget => ?_⟩
  · cases l with
    | nil => exact absurd rfl hl
    | cons b bs => simp [url_forV2, h]
  · simp [url_forV2, h, hget]
  · simp [url_forV2, h, hget]

/-- Concrete instantiation of `url_forV2_cases` covering all four branches. -/
theorem url_forV2_cases_witness :
    url_forV2 [] "region" none "kv-storage" "publicURL" = .error .endpointNotFound
    ∧ url_forV2 [⟨"kv-storage", [⟨[("publicURL", "http://a")]⟩, ⟨[("publicURL", "http://b")]⟩]⟩]
        "region" none "kv-storage" "publicURL" = .error .ambiguousEndpoints
    ∧ url_forV2 [⟨"kv-storage", [⟨[("adminURL", "http://a")]⟩]⟩]
        "region" none "kv-storage" "publicURL" = .error (.endpointTypeNotFound "publicURL")
    ∧ url_forV2 [⟨"kv-storage", [⟨[("publicURL", "http://a")]⟩]⟩]
        "region" none "kv-storage" "publicURL" = .ok "http://a" := by
  refine ⟨(url_forV2_cases [] "region" none "kv-storage" "publicURL").1 rfl,
    (url_forV2_cases _ "region" none "kv-storage" "publicURL").2.1
      ⟨[("publicURL", "http://a")]⟩ [⟨[("publicURL", "http://b")]⟩] rfl (by simp),
    (url_forV2_cases _ "region" none "kv-storage" "publicURL").2.2.1
      ⟨[("adminURL", "http://a")]⟩ rfl rfl,
    (url_forV2_cases _ "region" none "kv-storage" "publicURL").2.2.2
      ⟨[("publicURL", "http://a")]⟩ "http://a" rfl rfl⟩

/-- Claim C8: `Client.do_request` raises `RequestURITooLong` with excess equal
to the combined length minus 8192 whenever the combined length exceeds 8192,
before the request is sent, and sends the request otherwise. -/
theorem uri_length_guard (endpoint_url action : String) :
    (MAX_URI_LEN < endpoint_url.length + action.length →
      v1_do_request_guard endpoint_url action
        = .uriTooLong (endpoint_url.length + action.length - MAX_URI_LEN))
    ∧ (endpoint_url.length + action.length ≤ MAX_URI_LEN →
      v1_do_request_guard endpoint_url action = .sent (endpoint_url ++ action)) := by
  constructor
  · intro h
    simp [v1_do_request_guard, check_uri_length, h]
  · intro h
    simp [v1_do_request_guard, check_uri_length, Nat.not_lt.mpr h]

/-- Length of a string built from a replicated character list. -/
theorem string_length_mk_replicate (n : Nat) (c : Char) :
    (String.mk (List.replicate n c)).length = n := by
  show (List.replicate n c).length = n
  exact List.length_replicate n c

/-- Concrete instantiation of `uri_length_guard`: an endpoint of length 8000
and a path of length 200 yield excess 8, while short inputs are sent. -/
theorem uri_length_guard_witness :
    v1_do_request_guard ⟨List.replicate 8000 'a'⟩ ⟨List.replicate 200 'b'⟩ = .uriTooLong 8
    ∧ v1_do_request_guard "http://e" "/r" = .sent "http://e/r" := by
  constructor
  · have h := (uri_length_guard ⟨List.replicate 8000 'a'⟩ ⟨List.replicate 200 'b'⟩).1
    have hlen : (String.mk (List.replicate 8000 'a')).length
        + (String.mk (List.replicate 200 'b')).length = 8200 := by
      rw [string_length_mk_replicate, string_length_mk_replicate]
    rw [hlen] at h
    have h2 := h (by norm_num [MAX_URI_LEN])
    simpa [MAX_URI_LEN] using h2
  · exact (uri_length_guard "http://e" "/r").2 (by decide)

/-- Claim C10: the cached handle lives on the descriptor object shared by all
manager instances, so after a first access through instance `i1`, a second
access through any instance `i2` returns the very same handle built from `i1`,
and the factory has run exactly once. -/
theorem clientCache_shared_handle {α β : Type} (factory : α → β) (i1 i2 : α) :
    clientCacheGet factory i2 (clientCacheGet factory i1 (none, 0)).2
      = (factory i1, (some (factory i1), 1)) := rfl

/-- Claim C1 counterexample: with token and endpoint already held and every
attempt failing `Unauthorized` (all authentications succeeding), one
`do_request` call performs four HTTP attempts and three authentications, and
the error propagated to the caller is the third attempt's `Unauthorized`, not
the first attempt's. -/
theorem do_request_four_attempts :
    hc_do_request allUnauthorizedScript ⟨0, 0⟩ true true
      = (.error (.unauthorized 2), ⟨4, 3⟩)
    ∧ (hc_do_request allUnauthorizedScript ⟨0, 0⟩ true true).2.nAttempts ≠ 2
    ∧ (hc_do_request allUnauthorizedScript ⟨0, 0⟩ true true).2.nAuths ≠ 1
    ∧ (hc_do_request allUnauthorizedScript ⟨0, 0⟩ true true).1
        ≠ .error (.unauthorized 0) := by
  refine ⟨rfl, by decide, by decide, by decide⟩

/-- Claim C1 (amended): `_cs_request` implements the single-retry contract (on
`Unauthorized` from its first attempt it authenticates once, retries once, and
propagates the original error when the retry also fails `Unauthorized`), but
`do_request` wraps `_cs_request` in a second `Unauthorized` handler, so with
token and endpoint already held a fully failing `do_request` performs four
attempts and three authentications and propagates the first-attempt error of
the second `_cs_request` call (the third attempt overall). -/
theorem do_request_reauth_layers (sc : Script) (s : CallCounters)
    (e0 e1 e2 e3 : HErr)
    (h0 : sc.attemptResults s.nAttempts = .error e0) (hu0 : e0.isUnauthorized = true)
    (h1 : sc.attemptResults (s.nAttempts + 1) = .error e1) (hu1 : e1.isUnauthorized = true)
    (h2 : sc.attemptResults (s.nAttempts + 2) = .error e2) (hu2 : e2.isUnauthorized = true)
    (h3 : sc.attemptResults (s.nAttempts + 3) = .error e3) (hu3 : e3.isUnauthorized = true)
    (ha0 : sc.authResults s.nAuths = none)
    (ha1 : sc.authResults (s.nAuths + 1) = none)
    (ha2 : sc.authResults (s.nAuths + 2) = none) :
    cs_request sc s = (.error e0, ⟨s.nAttempts + 2, s.nAuths + 1⟩)
    ∧ hc_do_request sc s true true = (.error e2, ⟨s.nAttempts + 4, s.nAuths + 3⟩) := by
  have hcs1 : cs_request sc s = (.error e0, ⟨s.nAttempts + 2, s.nAuths + 1⟩) := by
    simp [cs_request, time_request, authenticate_call, h0, h1, hu0, hu1, ha0]
  have hcs2 : cs_request sc ⟨s.nAttempts + 2, s.nAuths + 2⟩
      = (.error e2, ⟨s.nAttempts + 4, s.nAuths + 3⟩) := by
    have h2x : sc.attemptResults (s.nAttempts + 2) = .error e2 := h2
    have h3x : sc.attemptResults (s.nAttempts + 2 + 1) = .error e3 := h3
    simp [cs_request, time_request, authenticate_call, h2x, h3x, hu2, hu3, ha2]
  refine ⟨hcs1, ?_⟩
  simp only [hc_do_request, authenticate_and_fetch_endpoint_url, Bool.not_true,
    Bool.false_eq_true, if_false, hcs1, hu0, if_true, authenticate_call, ha1]
  simpa using hcs2

/-- Concrete instantiation of `do_request_reauth_layers`. -/
theorem do_request_reauth_layers_witness :
    cs_request taggedUnauthorizedScript ⟨0, 0⟩ = (.error (.unauthorized 100), ⟨2, 1⟩)
    ∧ hc_do_request taggedUnauthorizedScript ⟨0, 0⟩ true true
      = (.error (.unauthorized 102), ⟨4, 3⟩) :=
  do_request_reauth_layers taggedUnauthorizedScript ⟨0, 0⟩
    (.unauthorized 100) (.unauthorized 101) (.unauthorized 102) (.unauthorized 103)
    rfl rfl rfl rfl rfl rfl rfl rfl rfl rfl rfl

/-- Helper for claim C6: when every attempt from index `i` on (while the loop
may still run) raises `ConnectionFailed`, the loop exhausts its budget, raises
the maximum-attempts error, performs one attempt per remaining iteration and
sleeps after every attempt except the last. -/
theorem retry_loop_all_failed (attempts : Nat → Except V1Err Nat)
    (retries retry_interval : Nat) :
    ∀ remaining i made slept, i + remaining = retries + 1 →
    (∀ j, j ≤ retries → isConnectionFailed (attempts j) = true) →
    retry_loop attempts retries retry_interval i remaining made slept
      = (.error (.connectionFailed "Maximum attempts reached"),
         made + remaining, slept + (remaining - 1) * retry_interval) := by
  intro remaining
  induction remaining with
  | zero => intro i made slept _ _; simp [retry_loop]
  | succ r ih =>
    intro i made slept hsum hcf
    have hile : i ≤ retries := by omega
    have hcfi := hcf i hile
    rcases hr : attempts i with e | v
    · cases e with
      | otherV1Err t => rw [hr] at hcfi; simp [isConnectionFailed] at hcfi
      | connectionFailed reason =>
        have hstep : retry_loop attempts retries retry_interval i (r + 1) made slept
            = retry_loop attempts retries retry_interval (i + 1) r (made + 1)
              (slept + (if i < retries then retry_interval else 0)) := by
          simp only [retry_loop, hr]
        have hrec := ih (i + 1) (made + 1)
          (slept + (if i < retries then retry_interval else 0)) (by omega) hcf
        rw [hstep, hrec]
        simp only [Prod.mk.injEq]
        refine ⟨by trivial, by omega, ?_⟩
        cases r with
        | zero =>
          have hni : ¬ i < retries := by omega
          simp [hni]
        | succ rr =>
          have hilt : i < retries := by omega
          simp only [hilt, if_true]
          have h1 : rr + 1 + 1 - 1 = rr + 1 := rfl
          have h2 : rr + 1 - 1 = rr := rfl
          rw [h1, h2, Nat.succ_mul]
          ring
    · rw [hr] at hcfi; simp [isConnectionFailed] at hcfi

/-- Claim C6: GET/PUT/DELETE go through `retry_request`, which retries only on
`ConnectionFailed`, up to `retries` additional attempts with
`retry_interval` sleeps between attempts, and raises `ConnectionFailed` with
the maximum-attempts reason after all attempts fail; any other error stops the
loop at once; POST performs exactly one attempt whose outcome (error included)
is returned unchanged. -/
theorem retry_request_policy (attempts : Nat → Except V1Err Nat)
    (retries retry_interval : Nat) :
    ((∀ j, j ≤ retries → isConnectionFailed (attempts j) = true) →
      retry_request attempts retries retry_interval
        = (.error (.connectionFailed "Maximum attempts reached"),
           retries + 1, retries * retry_interval))
    ∧ (∀ t, attempts 0 = .error (.otherV1Err t) →
      retry_request attempts retries retry_interval = (.error (.otherV1Err t), 1, 0))
    ∧ (∀ v, attempts 0 = .ok v →
      retry_request attempts retries retry_interval = (.ok v, 1, 0))
    ∧ (∀ r, attempts 0 = .error (.connectionFailed r) →
      post_request attempts = (.error (.connectionFailed r), 1, 0)) := by
  refine ⟨fun hcf => ?_, fun t ht => ?_, fun v hv => ?_, fun r hr => ?_⟩
  · have h := retry_loop_all_failed attempts retries retry_interval
      (retries + 1) 0 0 0 (by omega) hcf
    rw [retry_request, h]
    simp
  · rw [retry_request, retry_loop, ht]
  · rw [retry_request, retry_loop, hv]
  · rw [post_request, hr]

/-- Concrete instantiation of `retry_request_policy` with `retries = 2` and
`retry_interval = 5`: three attempts, two sleeps, maximum-attempts error; and a
POST whose single attempt fails `ConnectionFailed` propagates that error. -/
theorem retry_request_policy_witness :
    retry_request allConnectionFailed 2 5
      = (.error (.connectionFailed "Maximum attempts reached"), 3, 10)
    ∧ post_request allConnectionFailed
      = (.error (.connectionFailed "conn refused"), 1, 0) :=
  ⟨(retry_request_policy allConnectionFailed 2 5).1 (fun _ _ => rfl),
   (retry_request_policy allConnectionFailed 2 5).2.2.2 "conn refused" rfl⟩

/-- Claim C2: every response with status at least 400 raises an error from the
fixed taxonomy: a non-empty 400 body matching a refusal pattern raises
`ConnectionRefused`; otherwise the status picks the typed error of the map
(400 BadRequest, 401 Unauthorized, 403 Forbidden, 404 NotFound, 409 Conflict,
500 InternalServerError, 503 ServiceUnavailable), and every unmapped status
raises the generic client exception carrying that status and the message. -/
theorem request_error_taxonomy (status : Nat) (text : String) (h : 400 ≤ status) :
    ((text ≠ "" ∧ status = 400 ∧ connectionRefusedPattern text) →
      request_error status text = some (.connectionRefused text))
    ∧ (¬(text ≠ "" ∧ status = 400 ∧ connectionRefusedPattern text) →
      request_error status text = some (from_response status text))
    ∧ from_response 400 text = .typed .badRequest text
    ∧ from_response 401 text = .typed .unauthorized text
    ∧ from_response 403 text = .typed .forbidden text
    ∧ from_response 404 text = .typed .notFound text
    ∧ from_response 409 text = .typed .conflict text
    ∧ from_response 500 text = .typed .internalServerError text
    ∧ from_response 503 text = .typed .serviceUnavailable text
    ∧ (status ∉ ([400, 401, 403, 404, 409, 500, 503] : List Nat) →
      from_response status text = .generic status text) := by
  refine ⟨fun hc => ?_, fun hnc => ?_, rfl, rfl, rfl, rfl, rfl, rfl, rfl, fun hnm => ?_⟩
  · simp [request_error, hc]
  · simp [request_error, hnc, h]
  · simp only [List.mem_cons, List.not_mem_nil, or_false] at hnm
    push_neg at hnm
    obtain ⟨n1, n2, n3, n4, n5, n6, n7⟩ := hnm
    simp [from_response, HTTP_EXCEPTION_MAP, kindLookup, n1, n2, n3, n4, n5, n6, n7]

/-- Concrete instantiation of `request_error_taxonomy`: a mapped status, an
unmapped status, and a refusal-pattern 400. -/
theorem request_error_taxonomy_witness :
    request_error 503 "busy" = some (.typed .serviceUnavailable "busy")
    ∧ request_error 418 "teapot" = some (.generic 418 "teapot")
    ∧ request_error 400 "Connection refused by host"
      = some (.connectionRefused "Connection refused by host") := by
  refine ⟨?_, ?_, ?_⟩
  · exact ((request_error_taxonomy 503 "busy" (by norm_num)).2.1 (by decide)).trans
      (by decide)
  · exact ((request_error_taxonomy 418 "teapot" (by norm_num)).2.1 (by decide)).trans
      (by decide)
  · exact (request_error_taxonomy 400 "Connection refused by host" (by norm_num)).1
      (by decide)

/-- Claim C5 is violated by the code: `HTTPClient.request` hands its kwargs to
the request logger without applying `_strip_credentials`, so the log line
emitted for a request whose body contains the configured password contains the
password literal; the unused `_strip_credentials` helper would have replaced
it with the redaction marker. -/
theorem password_logged_unredacted :
    containsSubstr
      (request_log_line (some "hunter2") "http://e/r" "POST" ⟨[], some "pass=hunter2"⟩)
      "hunter2" = true
    ∧ (strip_credentials (some "hunter2") ⟨[], some "pass=hunter2"⟩).body
      = some "pass=REDACTED"
    ∧ containsSubstr
      ((strip_credentials (some "hunter2") ⟨[], some "pass=hunter2"⟩).body.getD "")
      "hunter2" = false := by
  exact ⟨by decide, by decide, by decide⟩

/-- Helper for claim C7: with any link relation fixed up front, the page loop
visits exactly the pages of the chain whenever the fuel covers the chain
length, terminating with the first page lacking a link of the followed
relation. -/
theorem paginate_chain (server : Server) (linkrel : String) (ps : Params)
    (pages : List Page) (hchain : PageChain server linkrel ps pages) :
    ∀ fuel, pages.length ≤ fuel → paginate server linkrel fuel ps = pages := by
  induction hchain with
  | last ps h =>
    intro fuel hf
    cases fuel with
    | zero => simp at hf
    | succ f => simp [paginate, h]
  | step ps ps2 rest h hrest ih =>
    intro fuel hf
    cases fuel with
    | zero => simp at hf
    | succ f =>
      have hr : rest.length ≤ f := by simp at hf; omega
      simp only [paginate, h]
      rw [ih f hr]

/-- Claim C7: for every finite chain of pages linked by the followed relation
(`previous` when page_reverse is set in the initial parameters, `next`
otherwise), `Client.list` with retrieve_all returns the concatenation, in page
order, of each page's entries under the collection key, the GET being
re-issued with the parameters parsed from each followed link's URL, and the
iteration visits exactly the pages up to the first one lacking a link with the
followed relation. -/
theorem client_list_concatenates_pages (server : Server) (ps : Params)
    (pages : List Page) (fuel : Nat)
    (hchain : PageChain server (linkrelOf (pageReverseOf ps)) ps pages)
    (hfuel : pages.length ≤ fuel) :
    paginate server (linkrelOf (pageReverseOf ps)) fuel ps = pages
    ∧ client_list server fuel ps = (pages.map Page.items).join := by
  have hpag := paginate_chain server (linkrelOf (pageReverseOf ps)) ps pages hchain fuel hfuel
  exact ⟨hpag, by rw [client_list, hpag]⟩

/-- Concrete instantiation of `client_list_concatenates_pages`: three pages
linked via next links whose URLs carry marker query parameters. -/
theorem client_list_concatenates_pages_witness :
    paginate c7Server "next" 3 [] = [c7Page1, c7Page2, c7Page3]
    ∧ client_list c7Server 3 [] = ["a", "b", "c", "d"] := by
  have hchain : PageChain c7Server (linkrelOf (pageReverseOf [])) []
      [c7Page1, c7Page2, c7Page3] := by
    have h1 : nextParams (c7Server []) (linkrelOf (pageReverseOf []))
        = some [("marker", ["2"])] := by decide
    have h2 : nextParams (c7Server [("marker", ["2"])]) (linkrelOf (pageReverseOf []))
        = some [("marker", ["3"])] := by decide
    have h3 : nextParams (c7Server [("marker", ["3"])]) (linkrelOf (pageReverseOf []))
        = none := by decide
    exact PageChain.step [] [("marker", ["2"])] [c7Page2, c7Page3] h1
      (PageChain.step [("marker", ["2"])] [("marker", ["3"])] [c7Page3] h2
        (PageChain.last [("marker", ["3"])] h3))
  have h := client_list_concatenates_pages c7Server [] [c7Page1, c7Page2, c7Page3] 3
    hchain (by decide)
  exact ⟨h.1, h.2.trans (by decide)⟩

/-- Claim C9: with credentials username u, password p, tenant name t and auth
URL http://host/v2.0, the keystone strategy dispatches to the v2 handshake,
which issues POST http://host/v2.0/tokens with the password-credentials body,
and a 200 response with token id TOK and one matching kv-storage endpoint with
publicURL http://svc leaves the session holding token TOK and endpoint URL
http://svc. -/
theorem keystone_v2_auth_scenario :
    authenticate_action c9Client
      = .ok (.httpPost "http://host/v2.0/tokens"
        (.obj [("auth", .obj [("passwordCredentials",
            .obj [("username", .str "u"), ("password", .str "p")]),
          ("tenantName", .str "t")])]))
    ∧ (process_keystone_response c9Client 200 c9RespBody).map
        (fun s => (s.auth_token, s.endpoint_url))
      = .ok (some "TOK", some "http://svc") :=
  ⟨rfl, rfl⟩

/-- Claim C4 counterexample: for the same catalog data (one kv-storage
endpoint in region r carrying only an adminURL), a publicURL query resolved
against the old shape raises the endpoint-kind-not-found error, while the same
query against the new-shape encoding raises `EndpointNotFound`: the two
resolvers do not raise the same error kind, because the new-shape algorithm
filters by interface during matching and has no endpoint-kind-not-found
branch. -/
theorem url_for_shapes_differ :
    url_forV2 c4CatOld "region" (some "r") "kv-storage" "publicURL"
      = .error (.endpointTypeNotFound "publicURL")
    ∧ url_forV3 (encodeCatalogV2 c4CatOld) "region" (some "r") "kv-storage" "publicURL"
      = .error .endpointNotFound := by
  exact ⟨by decide, by decide⟩

/-- Field lookup is unchanged by dropping the named URL fields, for a key that
is not one of them. -/
theorem assocGet_stripKindFields (fields : List (String × String)) (attr : String)
    (h : attr ∉ urlKinds) :
    assocGet (stripKindFields fields) attr = assocGet fields attr := by
  induction fields with
  | nil => rfl
  | cons p rest ih =>
    obtain ⟨k, v⟩ := p
    simp only [stripKindFields] at ih ⊢
    by_cases hk : k ∈ urlKinds
    · have hkne : k ≠ attr := fun he => h (he ▸ hk)
      simp [List.filter_cons, hk, hkne, assocGet, ih]
    · by_cases hka : k = attr
      · subst hka
        simp [List.filter_cons, h, assocGet]
      · simp [List.filter_cons, hk, hka, assocGet, ih]

/-- Distinct named URL fields yield distinct interfaces under the
three-character suffix strip. -/
theorem kindIfaceNe (k : String) (hk : k ∈ urlKinds) (et : String)
    (het : et ∈ urlKinds) (hne : k ≠ et) :
    (k.dropRight 3 == et.dropRight 3) = false := by
  simp only [urlKinds, List.mem_cons, List.not_mem_nil, or_false] at hk het
  rcases hk with rfl | rfl | rfl <;> rcases het with rfl | rfl | rfl <;>
    first
    | exact absurd rfl hne
    | decide

/-- Filtering the encoded endpoint of one named URL field by the new-shape
match condition for the requested kind keeps it exactly when the field is the
requested one and the old-shape filter matched. -/
theorem filter_matchesV3_encodeMatch (attr : String) (fv : Option String)
    (k et : String) (hk : k ∈ urlKinds) (het : et ∈ urlKinds) (ep : EndpointV2)
    (h1 : attr ≠ "interface") (h2 : attr ≠ "url") (h3 : attr ∉ urlKinds) :
    (encodeMatch k ep).toList.filter (endpointMatchesV3 attr fv (et.dropRight 3))
      = if k = et ∧ endpointMatchesV2 attr fv ep = true
        then (encodeMatch et ep).toList else [] := by
  rcases hg : ep.get k with _ | u
  · by_cases hke : k = et
    · subst hke
      simp [encodeMatch, hg]
    · simp [encodeMatch, hg, hke]
  · have hget : (EndpointV3.mk (k.dropRight 3) u (stripKindFields ep.fields)).get attr
        = ep.get attr := by
      simp [EndpointV3.get, h1, h2, EndpointV2.get, assocGet_stripKindFields _ _ h3]
    by_cases hke : k = et
    · subst hke
      have hp : endpointMatchesV3 attr fv (k.dropRight 3)
          ⟨k.dropRight 3, u, stripKindFields ep.fields⟩
          = endpointMatchesV2 attr fv ep := by
        simp [endpointMatchesV3, endpointMatchesV2, hget]
      by_cases hm : endpointMatchesV2 attr fv ep = true
      · simp [encodeMatch, hg, List.filter_cons, hp, hm]
      · simp [encodeMatch, hg, List.filter_cons, hp, hm]
    · have hne := kindIfaceNe k hk et het hke
      simp [encodeMatch, hg, endpointMatchesV3, hne, hke, List.filter_cons]

/-- Filtering the full encoding of one old-shape endpoint by the new-shape
match condition yields the encoded requested kind exactly when the old-shape
filter matched. -/
theorem filter_encodeEndpoint (attr : String) (fv : Option String) (et : String)
    (het : et ∈ urlKinds) (ep : EndpointV2)
    (h1 : attr ≠ "interface") (h2 : attr ≠ "url") (h3 : attr ∉ urlKinds) :
    (encodeEndpointV2 ep).filter (endpointMatchesV3 attr fv (et.dropRight 3))
      = if endpointMatchesV2 attr fv ep = true then (encodeMatch et ep).toList
        else [] := by
  simp only [encodeEndpointV2, List.filter_append,
    filter_matchesV3_encodeMatch attr fv "publicURL" et (by decide) het ep h1 h2 h3,
    filter_matchesV3_encodeMatch attr fv "adminURL" et (by decide) het ep h1 h2 h3,
    filter_matchesV3_encodeMatch attr fv "internalURL" et (by decide) het ep h1 h2 h3]
  have het2 : et = "publicURL" ∨ et = "adminURL" ∨ et = "internalURL" := by
    simpa [urlKinds] using het
  by_cases hm : endpointMatchesV2 attr fv ep = true <;>
    rcases het2 with rfl | rfl | rfl <;>
      simp [hm, show "adminURL" ≠ "publicURL" from by decide,
        show "internalURL" ≠ "publicURL" from by decide,
        show "publicURL" ≠ "adminURL" from by decide,
        show "internalURL" ≠ "adminURL" from by decide,
        show "publicURL" ≠ "internalURL" from by decide,
        show "adminURL" ≠ "internalURL" from by decide]

/-- Filtering the encoded endpoint list of a whole service corresponds to
filtering the old-shape endpoints and encoding the requested kind of each
match. -/
theorem filter_encodeService (attr : String) (fv : Option String) (et : String)
    (het : et ∈ urlKinds)
    (h1 : attr ≠ "interface") (h2 : attr ≠ "url") (h3 : attr ∉ urlKinds) :
    ∀ endpoints : List EndpointV2,
    ((endpoints.map encodeEndpointV2).flatten).filter
        (endpointMatchesV3 attr fv (et.dropRight 3))
      = (endpoints.filter (endpointMatchesV2 attr fv)).filterMap (encodeMatch et) := by
  intro endpoints
  induction endpoints with
  | nil => rfl
  | cons ep rest ih =>
    simp only [List.map_cons, List.flatten_cons, List.filter_append, ih,
      List.filter_cons, filter_encodeEndpoint attr fv et het ep h1 h2 h3]
    by_cases hm : endpointMatchesV2 attr fv ep = true
    · simp only [hm, if_true, List.filterMap_cons]
      cases hgm : encodeMatch et ep <;> simp [hgm]
    · simp [hm]

/-- The new-shape matching list over the encoded catalog is the encoded
requested kind of each old-shape matching endpoint. -/
theorem matchingV3_encodeCatalog (attr : String) (fv : Option String)
    (st et : String) (het : et ∈ urlKinds)
    (h1 : attr ≠ "interface") (h2 : attr ≠ "url") (h3 : attr ∉ urlKinds) :
    ∀ cat : CatalogV2,
    matchingEndpointsV3 attr fv st (et.dropRight 3) (encodeCatalogV2 cat)
      = (matchingEndpointsV2 attr fv st cat).filterMap (encodeMatch et) := by
  intro cat
  induction cat with
  | nil => rfl
  | cons svc rest ih =>
    simp only [encodeCatalogV2] at ih ⊢
    simp only [List.map_cons, matchingEndpointsV3,
      matchingEndpointsV2, List.filterMap_append, ih]
    by_cases htype : svc.type = st
    · simp only [htype, if_true]
      rw [filter_encodeService attr fv et het h1 h2 h3 svc.endpoints]
    · simp [htype]

/-- Claim C4 (amended): the two resolvers agree -- same URL, same error kind --
for every pair of an old-shape catalog and its new-shape encoding, for every
query whose endpoint kind is one of the named URL fields and whose filter
attribute is an ordinary field (not a named URL field nor `interface` or
`url`), provided every old-shape endpoint passing the service and region
filters carries the requested kind.  Without that proviso the algorithms
differ, because the new shape filters by interface during matching and lacks
the endpoint-kind-not-found branch. -/
theorem url_for_shapes_equiv (cat : CatalogV2) (attr : String) (fv : Option String)
    (st et : String) (het : et ∈ urlKinds)
    (h1 : attr ≠ "interface") (h2 : attr ≠ "url") (h3 : attr ∉ urlKinds)
    (hpresent : ∀ ep ∈ matchingEndpointsV2 attr fv st cat, (ep.get et).isSome = true) :
    url_forV3 (encodeCatalogV2 cat) attr fv st et = url_forV2 cat attr fv st et := by
  have hm := matchingV3_encodeCatalog attr fv st et het h1 h2 h3 cat
  cases hM : matchingEndpointsV2 attr fv st cat with
  | nil =>
    rw [hM] at hm
    simp only [List.filterMap_nil] at hm
    simp [url_forV3, url_forV2, hm, hM]
  | cons ep rest =>
    cases rest with
    | nil =>
      have hsome := hpresent ep (hM ▸ List.mem_cons_self ep [])
      rcases hu : ep.get et with _ | u
      · rw [hu] at hsome
        simp at hsome
      · rw [hM] at hm
        simp only [List.filterMap_cons, List.filterMap_nil, encodeMatch, hu,
          Option.map_some] at hm
        simp [url_forV3, url_forV2, hm, hM, hu]
    | cons ep2 rest2 =>
      have hs1 := hpresent ep (hM ▸ List.mem_cons_self ep (ep2 :: rest2))
      have hs2 := hpresent ep2 (hM ▸ List.mem_cons_of_mem ep
        (List.mem_cons_self ep2 rest2))
      rcases hu1 : ep.get et with _ | u1
      · rw [hu1] at hs1
        simp at hs1
      · rcases hu2 : ep2.get et with _ | u2
        · rw [hu2] at hs2
          simp at hs2
        · rw [hM] at hm
          simp only [List.filterMap_cons, encodeMatch, hu1, hu2,
            Option.map_some] at hm
          simp [url_forV3, url_forV2, hm, hM]

/-- Concrete instantiation of `url_for_shapes_equiv`: a catalog whose one
matching endpoint carries the requested publicURL kind resolves identically in
both shapes. -/
theorem url_for_shapes_equiv_witness :
    url_forV3 (encodeCatalogV2 c4CatBoth) "region" (some "r") "kv-storage" "publicURL"
      = url_forV2 c4CatBoth "region" (some "r") "kv-storage" "publicURL"
    ∧ url_forV2 c4CatBoth "region" (some "r") "kv-storage" "publicURL"
      = .ok "http://a" :=
  ⟨url_for_shapes_equiv c4CatBoth "region" (some "r") "kv-storage" "publicURL"
      (by decide) (by decide) (by decide) (by decide) (by decide),
   by decide⟩
